import Mathlib

/-!
Verification of the execution core of the CodeZ online-compiler backend
(`server-enhanced.js`): the process runner (`executeProcess`), the execution
pipeline (`executeCode`), workspace cleanup (`cleanupWorkDir`), the periodic
reclamation sweep, and the HTTP-gate validation of `/execute`.

Each definition is a shallow embedding of the corresponding JavaScript code;
line numbers in the comments refer to `src/server-enhanced.js`.
-/

/-! ## Process runner: result assembly (lines 184-202) -/

/-- Output-size limit used by the data handlers (lines 163 and 171): 1 MiB,
compared against each stream's own accumulated length. -/
def outputCap : Nat := 1024 * 1024

/-- The structured result `executeProcess` resolves with. -/
structure ProcessResult where
  stdout : String
  stderr : String
  exitCode : Int
  error : Option String
deriving DecidableEq, Repr

/-- The exit-code / error computation of the `close` handler (lines 187-201):
if the `killed` flag was set (timeout or output overflow), the exit code is the
sentinel `-1` and the error is one fixed message; otherwise the raw exit code
is reported, with a message exactly when it is nonzero. -/
def closeResultCore (killed : Bool) (code : Int) : Int × Option String :=
  if killed then
    (-1, some ("Process terminated: execution timeout or output limit exceeded"))
  else
    (code, if code ≠ 0 then some ("Process exited with code " ++ toString code) else none)

/-- The `close` handler of `executeProcess` (lines 184-202), assembling the
`ProcessResult` from the accumulated streams, the `killed` flag and the raw
exit code delivered by the OS. -/
def closeHandler (killed : Bool) (stdout stderr : String) (code : Int) : ProcessResult :=
  { stdout := stdout, stderr := stderr,
    exitCode := (closeResultCore killed code).1,
    error := (closeResultCore killed code).2 }

/-! ## Process runner: event machine (lines 134-202)

`executeProcess` reacts to asynchronous events: stdout/stderr data chunks,
the expiry of the `timeout` timer, the expiry of the 1-second grace timer it
schedules, and the child's `close` event.  We model the mutable state of the
promise executor and one step per event.  Stream accumulations are tracked by
their sizes, which is all the cap logic (lines 163, 171) reads. -/

/-- Signals the runner can send to the child. -/
inductive Signal
  | sigterm
  | sigkill
deriving DecidableEq, Repr

/-- Asynchronous events delivered to `executeProcess`'s handlers. -/
inductive REvent
  | stdoutData (n : Nat)
  | stderrData (n : Nat)
  | timerFire
  | graceFire
  | close (code : Int)
deriving DecidableEq, Repr

/-- Mutable state of the `executeProcess` promise executor:
`killed` is the local flag (line 136); `nodeKilled` models Node's
`subprocess.killed` property, which becomes true as soon as `kill()`
successfully sends any signal (it does NOT mean the child has exited);
`exited` records that the `close` event has fired; `graceScheduled` records
that the inner 1-second `setTimeout` (lines 152-156) is pending;
`timerDone` records that the main timer can no longer fire (fired or cleared);
`signals` is the list of signals actually delivered to the child;
`result` is the resolved value, set once by the `close` handler. -/
structure RState where
  stdoutLen : Nat := 0
  stderrLen : Nat := 0
  killed : Bool := false
  nodeKilled : Bool := false
  exited : Bool := false
  graceScheduled : Bool := false
  timerDone : Bool := false
  signals : List Signal := []
  result : Option (Int × Option String) := none
deriving DecidableEq, Repr

/-- Initial state of a run, as of line 146 (nothing accumulated, no flags). -/
def initState : RState := {}

/-- `process.kill(sig)`: succeeds (delivers the signal and sets Node's
`killed` property) exactly when the child has not yet exited. -/
def sendKill (s : RState) (sig : Signal) : RState :=
  if s.exited then s
  else { s with signals := s.signals ++ [sig], nodeKilled := true }

/-- One event-handler step of `executeProcess`:
* `stdoutData` / `stderrData` (lines 160-175): append the chunk; if that
  stream's own accumulated size now exceeds `outputCap`, set `killed` and
  send SIGTERM immediately (no SIGKILL is ever scheduled on this path);
* `timerFire` (lines 149-157): set `killed`, send SIGTERM, and schedule the
  grace timer;
* `graceFire` (lines 152-156): send SIGKILL only if `!process.killed`, i.e.
  only if no earlier signal was successfully sent;
* `close` (lines 184-202): clear the timer and resolve via `closeResultCore`. -/
def step (s : RState) (e : REvent) : RState :=
  match e with
  | .stdoutData n =>
    if s.exited then s
    else if s.stdoutLen + n > outputCap then
      sendKill { s with stdoutLen := s.stdoutLen + n, killed := true } .sigterm
    else { s with stdoutLen := s.stdoutLen + n }
  | .stderrData n =>
    if s.exited then s
    else if s.stderrLen + n > outputCap then
      sendKill { s with stderrLen := s.stderrLen + n, killed := true } .sigterm
    else { s with stderrLen := s.stderrLen + n }
  | .timerFire =>
    if s.timerDone then s
    else sendKill { s with killed := true, graceScheduled := true, timerDone := true } .sigterm
  | .graceFire =>
    if s.graceScheduled then
      if s.nodeKilled then { s with graceScheduled := false }
      else sendKill { s with graceScheduled := false } .sigkill
    else s
  | .close code =>
    if s.exited then s
    else { s with exited := true, timerDone := true,
                  result := some (closeResultCore s.killed code) }

/-- Run a sequence of events from the initial state. -/
def runEvents (events : List REvent) : RState :=
  events.foldl step initState

/-! ## Process runner: stdin handling (lines 204-208) -/

/-- Operations `executeProcess` may perform on the child's standard input. -/
inductive StdinAction
  | write (s : String)
  | close
deriving DecidableEq, BEq, Repr

/-- Lines 204-208: `if (input) { process.stdin.write(input); process.stdin.end(); }`.
The empty string is falsy in JavaScript, so an empty stdin text produces no
write and never closes the stream. -/
def stdinActions (input : String) : List StdinAction :=
  if input = "" then [] else [.write input, .close]

/-- The child observes end-of-file on its standard input exactly when the
runner closed the stream. -/
def eofDelivered (input : String) : Bool :=
  (stdinActions input).contains .close

/-! ## Language registry (lines 25-78) -/

/-- A registry entry (one per supported language).  The per-language compile
and run argument-builder closures of the source registry are embedded as the
standalone functions `cppCompileArgs`, `javaCompileArgs`, `cppRunArgs`,
`javaRunArgs`, `pythonRunArgs`, `nodeRunArgs` below; `executeCode` dispatches
to them by language exactly as lines 243-249 and 274-285 do. -/
structure LangConfig where
  extension : String
  compileCommand : Option String
  runCommandName : Option String
  timeout : Nat
  memoryLimit : Nat
deriving DecidableEq, Repr

/-- cpp compile args (lines 30-36): `[filepath, -o, outputPath, -std=c++17, -Wall, -O2]`. -/
def cppCompileArgs (filepath outputPath : String) : List String :=
  [filepath, "-o", outputPath, "-std=c++17", "-Wall", "-O2"]

/-- java compile args (line 49): `[filepath]`. -/
def javaCompileArgs (filepath : String) : List String :=
  [filepath]

/-- cpp run args (line 40): the constant empty list. -/
def cppRunArgs : List String := []

/-- java run args (line 53): `[-Xmx256m, className]`. -/
def javaRunArgs (className : String) : List String :=
  ["-Xmx256m", className]

/-- python run args (line 63): `[-u, filepath]`. -/
def pythonRunArgs (filepath : String) : List String :=
  ["-u", filepath]

/-- javascript run args (line 73): `[--max-old-space-size=256, filepath]`. -/
def nodeRunArgs (filepath : String) : List String :=
  ["--max-old-space-size=256", filepath]

/-- Registry entry for cpp (lines 26-44).  Its `run.command` in the source is
the function `(execPath) => execPath`, not a fixed string, so
`runCommandName` is `none`; the cpp branch of `executeCode` computes the run
command from the workspace path directly (line 275). -/
def cppConfig : LangConfig :=
  { extension := "cpp", compileCommand := some ("g++"), runCommandName := none,
    timeout := 10000, memoryLimit := 256 }

/-- Registry entry for java (lines 45-57). -/
def javaConfig : LangConfig :=
  { extension := "java", compileCommand := some ("javac"), runCommandName := some ("java"),
    timeout := 10000, memoryLimit := 256 }

/-- Registry entry for python (lines 58-67). -/
def pythonConfig : LangConfig :=
  { extension := "py", compileCommand := none, runCommandName := some ("python3"),
    timeout := 10000, memoryLimit := 256 }

/-- Registry entry for javascript (lines 68-77). -/
def javascriptConfig : LangConfig :=
  { extension := "js", compileCommand := none, runCommandName := some ("node"),
    timeout := 10000, memoryLimit := 256 }

/-- The registry lookup `LANGUAGE_CONFIG[language]` (lines 25-78). -/
def LANGUAGE_CONFIG (language : String) : Option LangConfig :=
  if language = "cpp" then some cppConfig
  else if language = "java" then some javaConfig
  else if language = "python" then some pythonConfig
  else if language = "javascript" then some javascriptConfig
  else none

/-! ## Java class-name sniffing (lines 228-234, 277-279)

`code.match(/public\s+class\s+(\w+)/)`: the first position at which the
literal `public`, one or more whitespace characters, the literal `class`,
one or more whitespace characters, and a maximal nonempty run of word
characters match; the captured word is the class name, defaulting to
`Main` when there is no match. -/

/-- ASCII whitespace matched by the regex class `\s`. -/
def isJsWs (c : Char) : Bool :=
  c = ' ' || c = '\t' || c = '\n' || c = '\r' || c = '\x0b' || c = '\x0c'

/-- Word characters matched by the regex class `\w`: ASCII alphanumerics and
underscore. -/
def isJsWordChar (c : Char) : Bool :=
  c.isAlphanum || c = '_'

/-- Drop an exact literal prefix, or fail. -/
def dropLit : List Char → List Char → Option (List Char)
  | [], cs => some cs
  | _ :: _, [] => none
  | l :: ls, c :: cs => if c = l then dropLit ls cs else none

/-- Match `public\s+class\s+(\w+)` anchored at the start of `cs`, returning
the capture.  `\s+` and `\w+` are maximal-munch here, which agrees with the
backtracking regex because no whitespace character can begin the following
literal and nothing follows the final `\w+`. -/
def matchPublicClassAt (cs : List Char) : Option String :=
  match dropLit ("public".toList) cs with
  | none => none
  | some cs₁ =>
    match cs₁ with
    | [] => none
    | c :: _ =>
      if isJsWs c then
        match dropLit ("class".toList) (cs₁.dropWhile isJsWs) with
        | none => none
        | some cs₂ =>
          match cs₂ with
          | [] => none
          | c₂ :: _ =>
            if isJsWs c₂ then
              match (cs₂.dropWhile isJsWs).takeWhile isJsWordChar with
              | [] => none
              | w :: ws => some (String.mk (w :: ws))
            else none
      else none

/-- Scan for the leftmost match, as `String.prototype.match` does. -/
def findPublicClass : List Char → Option String
  | [] => none
  | c :: cs =>
    match matchPublicClassAt (c :: cs) with
    | some w => some w
    | none => findPublicClass cs

/-- The derived Java class name: first capture of
`/public\s+class\s+(\w+)/`, falling back to `Main` (lines 229-230, 278-279). -/
def javaClassName (code : String) : String :=
  (findPublicClass code.toList).getD "Main"

/-! ## Execution pipeline (lines 213-315) -/

/-- The process-wide temp root `path.join(__dirname, temp)` (line 22). -/
def TEMP_DIR : String := "__dirname/temp"

/-- `path.join` restricted to the way the pipeline uses it. -/
def pathJoin (a b : String) : String := a ++ "/" ++ b

/-- Side effects the pipeline performs, in order: workspace creation, source
write, compile-phase spawn, run-phase spawn (with the stdin text bound to
it), workspace cleanup. -/
inductive PipelineAction
  | mkdir (dir : String)
  | writeFile (filepath content : String)
  | spawnCompile (command : String) (args : List String)
  | spawnRun (command : String) (args : List String) (input : String)
  | cleanup (dir : String)
deriving DecidableEq, Repr

/-- The result shape returned to the HTTP layer.  The compile-failure return
object (lines 262-267) carries no exit code, hence the `Option`. -/
structure ExecutionResult where
  output : String
  stderr : String
  error : Option String
  executionTime : Nat
  exitCode : Option Int
deriving DecidableEq, Repr

/-- Filename rule (lines 227-234): java names the file after the sniffed
public class; every other language uses `program.<ext>`. -/
def entryFilename (language : String) (config : LangConfig) (code : String) : String :=
  if language = "java" then javaClassName code ++ "." ++ config.extension
  else "program." ++ config.extension

/-- Compile invocation (lines 243-258): cpp passes the source and the output
path `workDir/program` to `g++`; java passes just the source to `javac`. -/
def compileInvocation (language cc workDir filepath : String) : String × List String :=
  if language = "cpp" then (cc, cppCompileArgs filepath (pathJoin workDir ("program")))
  else (cc, javaCompileArgs filepath)

/-- Run invocation (lines 272-285): cpp runs the compiled binary
`workDir/program` directly; java runs `java` on the sniffed class name; the
interpreted languages run their interpreter on the source file. -/
def runInvocation (language : String) (config : LangConfig) (workDir filepath code : String) :
    String × List String :=
  if language = "cpp" then (pathJoin workDir ("program"), cppRunArgs)
  else if language = "java" then (config.runCommandName.getD "", javaRunArgs (javaClassName code))
  else if language = "python" then (config.runCommandName.getD "", pythonRunArgs filepath)
  else (config.runCommandName.getD "", nodeRunArgs filepath)

/-- The pipeline `executeCode(language, code, input)` (lines 213-315), with
the run-time inputs it consumes made explicit: `uuid` is the fresh workspace
id, `elapsed` the measured wall-clock milliseconds, and `compileResult` /
`runResult` the `ProcessResult`s the two `executeProcess` invocations would
resolve with (the compile one is irrelevant for interpreted languages).
Returns the ordered list of side effects together with either the thrown
error (unknown language, line 216) or the assembled `ExecutionResult`. -/
def executeCode (language code input uuid : String) (elapsed : Nat)
    (compileResult runResult : ProcessResult) :
    List PipelineAction × Except String ExecutionResult :=
  match LANGUAGE_CONFIG language with
  | none => ([], .error ("Unsupported language: " ++ language))
  | some config =>
    let workDir := pathJoin TEMP_DIR uuid
    let filepath := pathJoin workDir (entryFilename language config code)
    match config.compileCommand with
    | some cc =>
      if compileResult.exitCode ≠ 0 then
        ([.mkdir workDir, .writeFile filepath code,
          .spawnCompile (compileInvocation language cc workDir filepath).1
            (compileInvocation language cc workDir filepath).2,
          .cleanup workDir],
         .ok { output := compileResult.stdout, stderr := compileResult.stderr,
               error := some ("Compilation failed"), executionTime := elapsed,
               exitCode := none })
      else
        ([.mkdir workDir, .writeFile filepath code,
          .spawnCompile (compileInvocation language cc workDir filepath).1
            (compileInvocation language cc workDir filepath).2,
          .spawnRun (runInvocation language config workDir filepath code).1
            (runInvocation language config workDir filepath code).2 input,
          .cleanup workDir],
         .ok { output := runResult.stdout, stderr := runResult.stderr,
               error := runResult.error, executionTime := elapsed,
               exitCode := some runResult.exitCode })
    | none =>
      ([.mkdir workDir, .writeFile filepath code,
        .spawnRun (runInvocation language config workDir filepath code).1
          (runInvocation language config workDir filepath code).2 input,
        .cleanup workDir],
       .ok { output := runResult.stdout, stderr := runResult.stderr,
             error := runResult.error, executionTime := elapsed,
             exitCode := some runResult.exitCode })

/-! ## HTTP gate of POST /execute (lines 320-349) -/

/-- JavaScript truthiness of `req.body` string fields: absent and empty
strings are falsy. -/
def jsTruthy (s : Option String) : Bool :=
  match s with
  | none => false
  | some str => !str.isEmpty

/-- Outcome of the validation prologue of the `/execute` route. -/
inductive GateResult
  | badRequest (msg : String)
  | proceed (language code input : String)
deriving DecidableEq, Repr

/-- The validation prologue (lines 324-354): missing fields, unknown
language, oversized code and oversized input are each rejected with a 400
response before `executeCode` is invoked; otherwise the pipeline runs with
`input ||` defaulted to the empty string. -/
def executeGate (language code input : Option String) : GateResult :=
  if !jsTruthy language || !jsTruthy code then
    .badRequest ("Missing required fields: language and code")
  else if (LANGUAGE_CONFIG (language.getD "")).isNone then
    .badRequest ("Unsupported language: " ++ language.getD "" ++
      ". Supported: cpp, java, python, javascript")
  else if (code.getD "").length > 1024 * 1024 then
    .badRequest ("Code size exceeds limit (1MB)")
  else if jsTruthy input && (input.getD "").length > 1024 * 1024 then
    .badRequest ("Input size exceeds limit (1MB)")
  else
    .proceed (language.getD "") (code.getD "") (input.getD "")

/-! ## Workspace cleanup (lines 91-99)

`cleanupWorkDir` lists the directory, unlinks every listed file, removes the
directory, and catches any error, logging it instead of rethrowing.  The
filesystem is modelled as a map from directory path to its file list; a
missing entry makes `readdir` fail with ENOENT, exactly the situation of an
already-destroyed (or sweeper-raced) workspace. -/

/-- Filesystem state visible to the cleanup routine. -/
abbrev Fs := String → Option (List String)

/-- `fs.readdir(workDir)`: fails with ENOENT when the directory is gone. -/
def readdirFs (fs : Fs) (dir : String) : Except String (List String) :=
  match fs dir with
  | none => .error ("ENOENT: no such file or directory, scandir " ++ dir)
  | some files => .ok files

/-- Remove a directory entry (after its files were unlinked). -/
def removeDir (fs : Fs) (dir : String) : Fs :=
  fun d => if d = dir then none else fs d

/-- The `try` block of `cleanupWorkDir` (lines 93-95): readdir, unlink each
listed file, rmdir. -/
def cleanupAttempt (fs : Fs) (dir : String) : Except String Fs :=
  match readdirFs fs dir with
  | .error e => .error e
  | .ok _files => .ok (removeDir fs dir)

/-- `cleanupWorkDir` (lines 91-99): the attempt with its `catch` — on any
error the filesystem is left as it was and the message is only logged
(the second component); nothing is rethrown. -/
def cleanupWorkDir (fs : Fs) (dir : String) : Fs × Option String :=
  match cleanupAttempt fs dir with
  | .ok fs₁ => (fs₁, none)
  | .error e => (fs, some ("Cleanup error: " ++ e))

/-! ## Periodic reclamation sweep (lines 102-122) -/

/-- What the sweep can observe about one immediate child of the temp root.
`statOk` models whether `fs.stat` succeeds on it (it fails, e.g., when the
entry was deleted between `readdir` and `stat`). -/
structure SweepEntry where
  name : String
  isDir : Bool
  mtimeMs : Nat
  statOk : Bool
deriving DecidableEq, Repr

/-- The staleness threshold of line 111: 10 minutes in milliseconds. -/
def staleMs : Nat := 10 * 60 * 1000

/-- `fs.stat` on one entry. -/
def statSweep (e : SweepEntry) : Except String (Bool × Nat) :=
  if e.statOk then .ok (e.isDir, e.mtimeMs)
  else .error ("ENOENT: no such file or directory, stat " ++ e.name)

/-- The per-entry body of the sweep loop (lines 109-117): stat inside a
`try`; a directory older than the threshold is cleaned up and its removal
logged; a stat error is swallowed by the per-entry `catch` and the entry is
left alone.  Returns (deleted?, log line). -/
def sweepOne (now : Nat) (e : SweepEntry) : Bool × Option String :=
  match statSweep e with
  | .ok (isDir, mtimeMs) =>
    if isDir && decide (now - mtimeMs > staleMs) then
      (true, some ("Cleaned up: " ++ e.name))
    else (false, none)
  | .error _ => (false, none)

/-- One full sweep over the temp root's immediate children (lines 104-118),
returning the surviving entries and the removal log, in scan order. -/
def periodicCleanup (now : Nat) : List SweepEntry → List SweepEntry × List String
  | [] => ([], [])
  | e :: rest =>
    let one := sweepOne now e
    let rest' := periodicCleanup now rest
    (if one.1 then rest'.1 else e :: rest'.1, one.2.toList ++ rest'.2)

/-- The entries a sweep removes: stat succeeded, it is a directory, and its
last-modified age exceeds the threshold. -/
def sweepDeletes (now : Nat) (e : SweepEntry) : Bool :=
  e.statOk && e.isDir && decide (now - e.mtimeMs > staleMs)

/-! ## Scoping of the promise executor of executeProcess (lines 125-146)

The executor body declares the block-scoped bindings `cwd`, `input`,
`timeout`, `memoryLimit` (line 127-132), `stdout`, `stderr`, `killed`
(lines 134-136) and `const process = spawn(...)` (line 138).  JavaScript
`let`/`const` declarations are hoisted to the top of the block but sit in
the temporal dead zone until their initializer completes: reading such a
binding before then throws a ReferenceError.  The spawn-options object of
lines 138-146 reads `process.env` (twice) inside the initializer of the
very `const process` being declared. -/

/-- The block-scoped names declared in the executor body. -/
def executorLocals : List String :=
  ["cwd", "input", "timeout", "memoryLimit", "stdout", "stderr", "killed", "process",
   "timeoutId"]

/-- One initialization step: complete the binding `name` after evaluating an
initializer that reads the listed names. -/
inductive JsStmt
  | initConst (name : String) (reads : List String)
deriving DecidableEq, Repr

/-- The executor body up to and including line 146, in execution order.  The
destructuring of `options` initializes the four option names; the stream
accumulators and the flag follow; the `spawn` call reads its own `const`
binding `process` through `...process.env` and `process.env.PATH`. -/
def executorPrologue : List JsStmt :=
  [ .initConst "cwd" ["options"],
    .initConst "input" ["options"],
    .initConst "timeout" ["options"],
    .initConst "memoryLimit" ["options"],
    .initConst "stdout" [],
    .initConst "stderr" [],
    .initConst "killed" [],
    .initConst "process"
      ["spawn", "command", "args", "cwd", "timeout", "process", "cwd", "process"] ]

/-- Read one name under `let`/`const` scoping: a block-local name that is not
yet out of its temporal dead zone raises a ReferenceError; anything else
(parameters, outer bindings, globals) resolves fine. -/
def readVar (assigned : List String) (n : String) : Except String Unit :=
  if n ∈ executorLocals ∧ n ∉ assigned then
    .error ("ReferenceError: Cannot access " ++ n ++ " before initialization")
  else .ok ()

/-- Read a list of names left to right. -/
def readVars (assigned : List String) : List String → Except String Unit
  | [] => .ok ()
  | n :: ns =>
    match readVar assigned n with
    | .error e => .error e
    | .ok _ => readVars assigned ns

/-- Run initialization statements in order, tracking which block locals have
left the temporal dead zone. -/
def runPrologue (assigned : List String) : List JsStmt → Except String (List String)
  | [] => .ok assigned
  | .initConst name reads :: rest =>
    match readVars assigned reads with
    | .error e => .error e
    | .ok _ => runPrologue (assigned ++ [name]) rest

/-! ## Theorems -/

/-- C1 counterexample: a forced termination does not carry an error naming
its specific cause.  A timeout-forced run and an overflow-forced run resolve
with the identical error message, which is the single combined string of
line 192 and is neither "execution timed out" nor "output limit exceeded". -/
theorem c1_forced_error_not_cause_specific_cex :
    (runEvents [.timerFire, .graceFire, .close 0]).result =
      (runEvents [.stdoutData 1048577, .close 0]).result ∧
    (runEvents [.timerFire, .graceFire, .close 0]).result =
      some (-1, some ("Process terminated: execution timeout or output limit exceeded")) ∧
    (runEvents [.timerFire, .graceFire, .close 0]).result ≠
      some (-1, some ("execution timed out")) ∧
    (runEvents [.stdoutData 1048577, .close 0]).result ≠
      some (-1, some ("output limit exceeded")) := by
  refine ⟨rfl, rfl, by decide, by decide⟩

/-- C1 amended: every forced termination (timeout expiry or output-cap
overflow) resolves with exit code sentinel -1 — regardless of the raw exit
code the OS reports — and the one fixed error message
"Process terminated: execution timeout or output limit exceeded", which
mentions both possible causes but does not identify which occurred. -/
theorem c1_forced_sentinel_amended (code : Int) :
    (runEvents [.timerFire, .graceFire, .close code]).result =
      some (-1, some ("Process terminated: execution timeout or output limit exceeded")) ∧
    (runEvents [.stdoutData 1048577, .close code]).result =
      some (-1, some ("Process terminated: execution timeout or output limit exceeded")) ∧
    ∀ stdout stderr : String,
      closeHandler true stdout stderr code =
        { stdout := stdout, stderr := stderr, exitCode := -1,
          error := some ("Process terminated: execution timeout or output limit exceeded") } := by
  refine ⟨rfl, rfl, fun out err => rfl⟩

/-- C2 (code bug): the two-stage termination never escalates.  On timeout
the runner sends SIGTERM and schedules SIGKILL behind the guard
`!process.killed` (line 153), but Node's `killed` property is already true
the moment the SIGTERM was successfully sent, so when the grace timer fires
against a still-alive child no SIGKILL is delivered; and the output-overflow
handlers (lines 160-175) send only SIGTERM and never schedule a grace timer
at all. -/
theorem c2_sigkill_escalation_dead_code :
    (runEvents [.timerFire]).nodeKilled = true ∧
    (runEvents [.timerFire, .graceFire]).signals = [Signal.sigterm] ∧
    Signal.sigkill ∉ (runEvents [.timerFire, .graceFire]).signals ∧
    (runEvents [.stdoutData 1048577]).signals = [Signal.sigterm] ∧
    (runEvents [.stdoutData 1048577]).graceScheduled = false ∧
    (runEvents [.stdoutData 1048577, .graceFire]).signals = [Signal.sigterm] := by
  decide

/-- C3 counterexample: the cap is not enforced on the combined
stdout/stderr total.  After 600000 bytes on each stream the combined
accumulation exceeds 1 MiB, yet the run is not marked overflowed and no
termination signal has been sent. -/
theorem c3_combined_cap_not_enforced_cex :
    (runEvents [.stdoutData 600000, .stderrData 600000]).stdoutLen +
      (runEvents [.stdoutData 600000, .stderrData 600000]).stderrLen > outputCap ∧
    (runEvents [.stdoutData 600000, .stderrData 600000]).killed = false ∧
    (runEvents [.stdoutData 600000, .stderrData 600000]).signals = [] := by
  decide

/-- C3 amended: the cap (1 MiB) is enforced per stream.  The instant a data
chunk pushes a single stream's own accumulated size above `outputCap`, the
run is marked overflowed (the `killed` flag) and SIGTERM is sent in that
same handler invocation, without waiting for more output. -/
theorem c3_per_stream_cap_amended (s : RState) (n : Nat) (hex : s.exited = false) :
    outputCap = 1024 * 1024 ∧
    (s.stdoutLen + n > outputCap →
      (step s (.stdoutData n)).killed = true ∧
      (step s (.stdoutData n)).signals = s.signals ++ [Signal.sigterm]) ∧
    (s.stderrLen + n > outputCap →
      (step s (.stderrData n)).killed = true ∧
      (step s (.stderrData n)).signals = s.signals ++ [Signal.sigterm]) := by
  refine ⟨rfl, fun h => ⟨?_, ?_⟩, fun h => ⟨?_, ?_⟩⟩ <;> simp [step, sendKill, hex, h]

/-- Witness for `c3_per_stream_cap_amended` at the initial state with a
chunk one byte over the cap, on each stream. -/
theorem c3_per_stream_cap_witness :
    (step initState (.stdoutData 1048577)).killed = true ∧
    (step initState (.stdoutData 1048577)).signals = [Signal.sigterm] ∧
    (step initState (.stderrData 1048577)).killed = true := by
  have h := c3_per_stream_cap_amended initState 1048577 rfl
  refine ⟨(h.2.1 (by decide)).1, ?_, (h.2.2 (by decide)).1⟩
  have h2 := (h.2.1 (by decide)).2
  simpa using h2

/-- C4: when the compile phase of a compiled language fails (nonzero exit
code, which includes the -1 sentinel of a forced termination), the pipeline
returns "Compilation failed" mirroring the compiler's captured streams,
never spawns the run toolchain, and destroys the workspace (lines 260-268). -/
theorem c4_compile_failure_stops_pipeline
    (language code input uuid : String) (elapsed : Nat) (config : LangConfig)
    (hcfg : LANGUAGE_CONFIG language = some config) (cc : String)
    (hcc : config.compileCommand = some cc)
    (compileResult runResult : ProcessResult) (hfail : compileResult.exitCode ≠ 0) :
    (executeCode language code input uuid elapsed compileResult runResult).2 =
      .ok { output := compileResult.stdout, stderr := compileResult.stderr,
            error := some ("Compilation failed"), executionTime := elapsed,
            exitCode := none } ∧
    (∀ c a i, PipelineAction.spawnRun c a i ∉
      (executeCode language code input uuid elapsed compileResult runResult).1) ∧
    PipelineAction.cleanup (pathJoin TEMP_DIR uuid) ∈
      (executeCode language code input uuid elapsed compileResult runResult).1 := by
  simp only [executeCode, hcfg, hcc, if_pos hfail]
  refine ⟨trivial, fun c a i => ?_, ?_⟩ <;> simp

/-- Witness for `c4_compile_failure_stops_pipeline`: a cpp submission whose
compiler exits 1. -/
theorem c4_compile_failure_witness :
    (executeCode "cpp" "bad" "" "id0" 5
        { stdout := "", stderr := "boom", exitCode := 1,
          error := some ("Process exited with code 1") }
        { stdout := "", stderr := "", exitCode := 0, error := none }).2 =
      .ok { output := "", stderr := "boom", error := some ("Compilation failed"),
            executionTime := 5, exitCode := none } := by
  exact (c4_compile_failure_stops_pipeline "cpp" "bad" "" "id0" 5 cppConfig (by decide)
    "g++" (by decide) _ _ (by decide)).1

/-- C5: for a pipeline run whose run phase exits naturally (not forced), the
returned error is null exactly when the exit code is 0; a nonzero exit code
n yields the message "Process exited with code n" while the captured stdout
and stderr are still returned in full (lines 194-200, 303-309). -/
theorem c5_run_exit_error_iff
    (language code input uuid : String) (elapsed : Nat) (config : LangConfig)
    (hcfg : LANGUAGE_CONFIG language = some config)
    (compileResult : ProcessResult) (hc : compileResult.exitCode = 0)
    (out err : String) (n : Int) :
    (executeCode language code input uuid elapsed compileResult
        (closeHandler false out err n)).2 =
      .ok { output := out, stderr := err,
            error := if n ≠ 0 then some ("Process exited with code " ++ toString n) else none,
            executionTime := elapsed, exitCode := some n } ∧
    ((closeHandler false out err n).error = none ↔ n = 0) := by
  constructor
  · cases hcomp : config.compileCommand with
    | none => simp [executeCode, hcfg, hcomp, closeHandler, closeResultCore]
    | some cc => simp [executeCode, hcfg, hcomp, hc, closeHandler, closeResultCore]
  · by_cases hn : n = 0 <;> simp [closeHandler, closeResultCore, hn]

/-- Witness for `c5_run_exit_error_iff`: a python run exiting with code 2. -/
theorem c5_run_exit_witness :
    (executeCode "python" "code" "" "u1" 7
        { stdout := "", stderr := "", exitCode := 0, error := none }
        (closeHandler false "out" "err" 2)).2 =
      .ok { output := "out", stderr := "err",
            error := some ("Process exited with code 2"),
            executionTime := 7, exitCode := some 2 } ∧
    ((closeHandler false "out" "err" 2).error = none ↔ (2 : Int) = 0) := by
  have h := c5_run_exit_error_iff "python" "code" "" "u1" 7 pythonConfig (by decide)
    { stdout := "", stderr := "", exitCode := 0, error := none } rfl "out" "err" 2
  exact ⟨h.1.trans (by rfl), h.2⟩

/-- C6: a language id that does not key the registry is rejected before any
resource allocation — `executeCode` throws "Unsupported language" with an
empty side-effect trace (no workspace directory is created, lines 213-221),
and the `/execute` route's validation never reaches the pipeline for such a
request (lines 333-337). -/
theorem c6_unsupported_language_no_workspace
    (language code input uuid : String) (elapsed : Nat)
    (compileResult runResult : ProcessResult)
    (h : LANGUAGE_CONFIG language = none) :
    (executeCode language code input uuid elapsed compileResult runResult).1 = [] ∧
    (executeCode language code input uuid elapsed compileResult runResult).2 =
      .error ("Unsupported language: " ++ language) ∧
    (∀ l c i, executeGate (some language) (some code) (some input) ≠
      GateResult.proceed l c i) := by
  refine ⟨by simp [executeCode, h], by simp [executeCode, h], fun l c i => ?_⟩
  by_cases h1 : (!jsTruthy (some language) || !jsTruthy (some code)) = true
  · simp [executeGate, h1]
  · simp [executeGate, h1, h]

/-- Witness for `c6_unsupported_language_no_workspace` at language "ruby". -/
theorem c6_unsupported_language_witness :
    (executeCode "ruby" "x" "" "u2" 0
        { stdout := "", stderr := "", exitCode := 0, error := none }
        { stdout := "", stderr := "", exitCode := 0, error := none }).1 = [] ∧
    executeGate (some "ruby") (some "x") (some "") ≠
      GateResult.proceed "ruby" "x" "" := by
  have h := c6_unsupported_language_no_workspace "ruby" "x" "" "u2" 0
    { stdout := "", stderr := "", exitCode := 0, error := none }
    { stdout := "", stderr := "", exitCode := 0, error := none } (by decide)
  exact ⟨h.1, h.2.2 "ruby" "x" ""⟩

/-- C7: workspace destruction is idempotent and never raises.  One call
removes the directory and touches nothing else; a second call on the
already-destroyed directory leaves the filesystem unchanged and reports the
ENOENT only through the log, never as an exception (lines 91-99). -/
theorem c7_cleanup_idempotent_never_raises (fs : Fs) (dir : String) :
    (cleanupWorkDir fs dir).1 dir = none ∧
    (∀ d, d = dir ∨ (cleanupWorkDir fs dir).1 d = fs d) ∧
    cleanupWorkDir (cleanupWorkDir fs dir).1 dir =
      ((cleanupWorkDir fs dir).1,
       some ("Cleanup error: " ++
         ("ENOENT: no such file or directory, scandir " ++ dir))) := by
  cases hfs : fs dir with
  | none =>
    refine ⟨?_, fun d => Or.inr ?_, ?_⟩ <;>
      simp [cleanupWorkDir, cleanupAttempt, readdirFs, hfs]
  | some files =>
    refine ⟨?_, fun d => ?_, ?_⟩
    · simp [cleanupWorkDir, cleanupAttempt, readdirFs, removeDir, hfs]
    · by_cases hd : d = dir
      · exact Or.inl hd
      · exact Or.inr (by simp [cleanupWorkDir, cleanupAttempt, readdirFs, removeDir, hfs, hd])
    · simp [cleanupWorkDir, cleanupAttempt, readdirFs, removeDir, hfs]

/-- C8: one sweep over the temp root's immediate children deletes exactly
the entries that stat as directories whose last-modified age exceeds the
10-minute threshold, logging each removal; every other entry — fresher,
non-directory, or one whose stat errored — survives, and a failing entry
does not stop the remaining entries from being processed (the
characterization holds pointwise over the whole scan). -/
theorem c8_sweep_exactly_stale_dirs (now : Nat) (entries : List SweepEntry) :
    (periodicCleanup now entries).1 =
      entries.filter (fun e => !sweepDeletes now e) ∧
    (periodicCleanup now entries).2 =
      (entries.filter (sweepDeletes now)).map (fun e => "Cleaned up: " ++ e.name) := by
  induction entries with
  | nil => exact ⟨rfl, rfl⟩
  | cons e rest ih =>
    have hone : (sweepOne now e).1 = sweepDeletes now e ∧
        (sweepOne now e).2 =
          (if sweepDeletes now e then some ("Cleaned up: " ++ e.name) else none) := by
      by_cases hs : e.statOk <;>
        by_cases hd : (e.isDir && decide (now - e.mtimeMs > staleMs)) = true <;>
          simp [sweepOne, statSweep, sweepDeletes, hs, hd]
    by_cases hdel : sweepDeletes now e = true <;>
      simp [periodicCleanup, hone.1, hone.2, ih.1, ih.2, hdel, List.filter_cons]

/-- C9 (code bug): `executeProcess` can never apply the intended child
environment.  The spawn-options object of lines 138-146 reads `process.env`
inside the initializer of the block-scoped `const process` that shadows the
Node global, so evaluating the executor body reaches the temporal dead zone
and throws a ReferenceError before `spawn` is ever called. -/
theorem c9_spawn_env_tdz_reference_error :
    runPrologue [] executorPrologue =
      .error ("ReferenceError: Cannot access process before initialization") := by
  rfl

/-- C10: with empty stdin text, the runner performs no write to the child's
standard input and never closes that stream (lines 204-208), so the child is
never shown end-of-file; a nonempty text is written and the stream closed. -/
theorem c10_empty_stdin_no_write_no_eof :
    stdinActions "" = [] ∧
    eofDelivered "" = false ∧
    stdinActions "x" = [.write "x", .close] ∧
    eofDelivered "x" = true := by
  exact ⟨rfl, rfl, rfl, rfl⟩
